import Mathlib

/-!
Shallow embedding of `core/src/scans.rs` from the oracle-core repository.

The module registers UTXO-set scans with an external Ergo node and retrieves
matching boxes.  External collaborators (the node RPC layer from
`node_interface`, box values from `ergo_lib`, the filesystem) are modelled as
explicit parameters: a `NodeInterface` record of response functions, an opaque
`ErgoBox` value type, and an explicit file-state argument threaded through
`save_scan_ids_locally`.  JSON values built with the `object!` macro of the
Rust `json` crate are embedded as the inductive `Json`.
-/

namespace OracleScans

/-- Opaque transport/RPC error from the node collaborator
(`ergo_node_interface::NodeError`); this core only passes it through. -/
structure NodeError where
  msg : String
deriving DecidableEq

/-- Opaque box value (`ergo_lib ErgoBox`); this core never inspects it. -/
structure ErgoBox where
  val : Nat
deriving DecidableEq

/-- `pub type ScanID = String;` -/
def ScanID : Type := String

instance : DecidableEq ScanID := inferInstanceAs (DecidableEq String)

/-- The error enum `ScanError` of `scans.rs`.  `IoError` carries the
`std::io::Error` message as an opaque string. -/
inductive ScanError where
  | NodeError (e : OracleScans.NodeError)
  | NoBoxesFound
  | FailedToRegister
  | IoError (msg : String)
deriving DecidableEq

/-- JSON values as built by the Rust `json` crate's `object!` macro
(only the shapes this module constructs: strings, arrays, objects). -/
inductive Json where
  | null
  | str (s : String)
  | arr (elems : List Json)
  | obj (fields : List (String × Json))

/-- Field lookup on a JSON object; `none` on non-objects and absent keys. -/
def Json.lookupField : Json → String → Option Json
  | Json.obj fields, k => go fields k
  | _, _ => none
where
  go : List (String × Json) → String → Option Json
    | [], _ => none
    | (k, v) :: rest, key => if k = key then some v else go rest key

/-- Whether a JSON string value is the literal `containsAsset`. -/
def Json.isContainsAssetStr : Json → Bool
  | Json.str s => s == "containsAsset"
  | _ => false

mutual

/-- Whether a JSON tree contains an asset-containment condition, i.e. a
field `predicate` whose value is the string `containsAsset`. -/
def Json.hasContainsAsset : Json → Bool
  | Json.null => false
  | Json.str _ => false
  | Json.arr elems => Json.listHasContainsAsset elems
  | Json.obj fields => Json.fieldsHaveContainsAsset fields

def Json.listHasContainsAsset : List Json → Bool
  | [] => false
  | j :: rest => Json.hasContainsAsset j || Json.listHasContainsAsset rest

def Json.fieldsHaveContainsAsset : List (String × Json) → Bool
  | [] => false
  | (k, v) :: rest =>
      (k == "predicate" && Json.isContainsAssetStr v)
        || Json.hasContainsAsset v
        || Json.fieldsHaveContainsAsset rest

end

/-- The collaborator functions imported from `node_interface` at the top of
`scans.rs`; each is a fallible call to the external node. -/
structure NodeInterface where
  register_scan : Json → Except NodeError ScanID
  get_scan_boxes : ScanID → Except NodeError (List ErgoBox)
  serialize_box : ErgoBox → Except NodeError String
  serialize_boxes : List ErgoBox → Except NodeError (List String)
  address_to_bytes : String → Except NodeError String
  address_to_raw_for_register : String → Except NodeError String

/-- `struct Scan { name, id }`. -/
structure Scan where
  name : String
  id : ScanID
deriving DecidableEq

/-- `Scan::new(name, scan_id)`. -/
def Scan.new (name : String) (scan_id : ScanID) : Scan :=
  { name := name, id := scan_id }

/-- The request body built inside `Scan::register`:
`object! { scanName: name, trackingRule: tracking_rule.clone() }`. -/
def scanRegJson (name : String) (tracking_rule : Json) : Json :=
  Json.obj [("scanName", Json.str name), ("trackingRule", tracking_rule)]

/-- `Scan::register(name, tracking_rule)`: submits the scan description via
`register_scan` and wraps the returned identifier; the `?` operator converts
a `NodeError` into `ScanError::NodeError`.  (The `info!` / `print_and_log`
calls are observability only and are not modelled.) -/
def Scan.register (node : NodeInterface) (name : String) (tracking_rule : Json) :
    Except ScanError Scan :=
  match node.register_scan (scanRegJson name tracking_rule) with
  | Except.error e => Except.error (ScanError.NodeError e)
  | Except.ok scan_id => Except.ok (Scan.new name scan_id)

/-- `Scan::get_boxes`: `get_scan_boxes(&self.id)?`. -/
def Scan.get_boxes (node : NodeInterface) (self : Scan) :
    Except ScanError (List ErgoBox) :=
  match node.get_scan_boxes self.id with
  | Except.error e => Except.error (ScanError.NodeError e)
  | Except.ok boxes => Except.ok boxes

/-- `Scan::get_box`: `self.get_boxes()?.into_iter().next().ok_or(ScanError::NoBoxesFound)`. -/
def Scan.get_box (node : NodeInterface) (self : Scan) : Except ScanError ErgoBox :=
  match Scan.get_boxes node self with
  | Except.error e => Except.error e
  | Except.ok boxes =>
    match boxes with
    | [] => Except.error ScanError.NoBoxesFound
    | b :: _ => Except.ok b

/-- `Scan::get_serialized_boxes`: `serialize_boxes(&self.get_boxes()?)?`. -/
def Scan.get_serialized_boxes (node : NodeInterface) (self : Scan) :
    Except ScanError (List String) :=
  match Scan.get_boxes node self with
  | Except.error e => Except.error e
  | Except.ok boxes =>
    match node.serialize_boxes boxes with
    | Except.error e => Except.error (ScanError.NodeError e)
    | Except.ok ss => Except.ok ss

/-- `Scan::get_serialized_box`: `serialize_box(&self.get_box()?)?`. -/
def Scan.get_serialized_box (node : NodeInterface) (self : Scan) :
    Except ScanError String :=
  match Scan.get_box node self with
  | Except.error e => Except.error e
  | Except.ok b =>
    match node.serialize_box b with
    | Except.error e => Except.error (ScanError.NodeError e)
    | Except.ok s => Except.ok s

/-! ### Persistence: `save_scan_ids_locally`

The Rust code builds a `json` object `id_json` with `id_json[scan.name] =
scan.id`, then calls `std::fs::write("scanIDs.json", json::stringify_pretty(id_json, 4))`.
Only string values ever enter `id_json`, so it is embedded as an association
list of string pairs with the `json` crate's insert semantics (replace the
value in place when the key exists, append otherwise).  The filesystem is
explicit: the prior file content is an `Option String` argument, the result
of `std::fs::write` an `Except String Unit` argument, and the function
returns the Rust result paired with the new file content. -/

/-- `id_json[key] = value` on a `json` object: replace in place if the key is
present, append otherwise. -/
def insertField : List (String × String) → String → String → List (String × String)
  | [], k, v => [(k, v)]
  | (k0, v0) :: rest, k, v =>
    if k0 = k then (k0, v) :: rest else (k0, v0) :: insertField rest k v

/-- The `for scan in scans` loop of `save_scan_ids_locally`: early return of
`ScanError::FailedToRegister` on a `"null"` id, otherwise insert the
name-to-id entry. -/
def build_scan_id_fields : List Scan → List (String × String) →
    Except ScanError (List (String × String))
  | [], acc => Except.ok acc
  | s :: rest, acc =>
    if s.id = "null" then Except.error ScanError.FailedToRegister
    else build_scan_id_fields rest (insertField acc s.name s.id)

/-- JSON string escaping as done by the `json` crate when dumping. -/
def escapeJsonChar (c : Char) : String :=
  if c = '"' then "\\\""
  else if c = '\\' then "\\\\"
  else if c = '\n' then "\\n"
  else if c = '\r' then "\\r"
  else if c = '\t' then "\\t"
  else String.singleton c

def escapeJsonString (s : String) : String :=
  String.join (s.data.map escapeJsonChar)

def quoteJson (s : String) : String :=
  "\"" ++ escapeJsonString s ++ "\""

def jsonIndent (n : Nat) : String :=
  String.mk (List.replicate n ' ')

/-- `json::stringify_pretty(id_json, spaces)` on a flat object of string
values: `\x7b\x7d` when empty, otherwise one `"key": "value"` entry per line,
indented and comma-separated. -/
def stringify_pretty (fields : List (String × String)) (spaces : Nat) : String :=
  match fields with
  | [] => "\x7b\x7d"
  | _ =>
    "\x7b\n"
      ++ String.intercalate ",\n"
          (fields.map (fun kv => jsonIndent spaces ++ quoteJson kv.1 ++ ": " ++ quoteJson kv.2))
      ++ "\n\x7d"

/-- `save_scan_ids_locally(scans)`.  `writeRes` is the outcome
`std::fs::write` would report; on any error path the file content `fs` is
left unchanged. -/
def save_scan_ids_locally (writeRes : Except String Unit) (fs : Option String)
    (scans : List Scan) : Except ScanError Bool × Option String :=
  match build_scan_id_fields scans [] with
  | Except.error e => (Except.error e, fs)
  | Except.ok fields =>
    match writeRes with
    | Except.error msg => (Except.error (ScanError.IoError msg), fs)
    | Except.ok _ => (Except.ok true, some (stringify_pretty fields 4))

/-! ### The six catalog registration procedures

`register_pool_box_scan` and `register_refresh_box_scan` obtain the contract
tree bytes from `PoolContract` / `RefreshContract` (modules outside this
file's source); since the tracking-rule shape does not depend on the byte
values, those bytes are passed in as parameters.  `register_pool_deposit_scan`
calls `.expect(..)` on the `address_to_bytes` result, i.e. it panics instead
of propagating the error, so catalog procedures return a `RunResult` that
distinguishes a Rust panic from a returned `Result`. -/

/-- Outcome of running a Rust function that may panic: `ok`/`err` are the
two sides of the returned `Result`, `panicked` is an `.expect(..)` panic with
its message. -/
inductive RunResult (α : Type) where
  | ok (a : α)
  | err (e : ScanError)
  | panicked (msg : String)

/-- Lift the `Result` returned by `Scan::register` into `RunResult`. -/
def liftScanResult : Except ScanError Scan → RunResult Scan
  | Except.ok s => RunResult.ok s
  | Except.error e => RunResult.err e

/-- Tracking rule of `register_pool_box_scan`:
`and [containsAsset(oracle_pool_nft), equals(pool_box_tree_bytes)]`. -/
def pool_box_tracking_rule (oracle_pool_nft pool_box_tree_bytes : String) : Json :=
  Json.obj
    [("predicate", Json.str "and"),
     ("args", Json.arr
       [Json.obj [("predicate", Json.str "containsAsset"),
                  ("assetId", Json.str oracle_pool_nft)],
        Json.obj [("predicate", Json.str "equals"),
                  ("value", Json.str pool_box_tree_bytes)]])]

/-- Tracking rule of `register_refresh_box_scan`:
`and [containsAsset(refresh_nft), equals(tree_bytes)]`. -/
def refresh_box_tracking_rule (refresh_nft tree_bytes : String) : Json :=
  Json.obj
    [("predicate", Json.str "and"),
     ("args", Json.arr
       [Json.obj [("predicate", Json.str "containsAsset"),
                  ("assetId", Json.str refresh_nft)],
        Json.obj [("predicate", Json.str "equals"),
                  ("value", Json.str tree_bytes)]])]

/-- Tracking rule of `register_epoch_preparation_scan`:
`and [containsAsset(oracle_pool_nft), equals(epoch_prep_bytes)]`. -/
def epoch_preparation_tracking_rule (oracle_pool_nft epoch_prep_bytes : String) : Json :=
  Json.obj
    [("predicate", Json.str "and"),
     ("args", Json.arr
       [Json.obj [("predicate", Json.str "containsAsset"),
                  ("assetId", Json.str oracle_pool_nft)],
        Json.obj [("predicate", Json.str "equals"),
                  ("value", Json.str epoch_prep_bytes)]])]

/-- Tracking rule of `register_local_oracle_datapoint_scan`:
`and [containsAsset(participant token), equals(datapoint bytes),
equals(R4, oracle address raw bytes)]`. -/
def local_datapoint_tracking_rule
    (oracle_pool_participant_token datapoint_add_bytes oracle_add_bytes : String) : Json :=
  Json.obj
    [("predicate", Json.str "and"),
     ("args", Json.arr
       [Json.obj [("predicate", Json.str "containsAsset"),
                  ("assetId", Json.str oracle_pool_participant_token)],
        Json.obj [("predicate", Json.str "equals"),
                  ("value", Json.str datapoint_add_bytes)],
        Json.obj [("predicate", Json.str "equals"),
                  ("register", Json.str "R4"),
                  ("value", Json.str oracle_add_bytes)]])]

/-- Tracking rule of `register_datapoint_scan`:
`and [containsAsset(participant token), equals(datapoint bytes)]`. -/
def datapoint_tracking_rule
    (oracle_pool_participant_token datapoint_add_bytes : String) : Json :=
  Json.obj
    [("predicate", Json.str "and"),
     ("args", Json.arr
       [Json.obj [("predicate", Json.str "containsAsset"),
                  ("assetId", Json.str oracle_pool_participant_token)],
        Json.obj [("predicate", Json.str "equals"),
                  ("value", Json.str datapoint_add_bytes)]])]

/-- Tracking rule of `register_pool_deposit_scan`: a single
`equals(pool_dep_add_bytes)` condition. -/
def pool_deposit_tracking_rule (pool_dep_add_bytes : String) : Json :=
  Json.obj
    [("predicate", Json.str "equals"),
     ("value", Json.str pool_dep_add_bytes)]

/-- `register_pool_box_scan(oracle_pool_nft)`; the pool contract tree bytes
come from `PoolContract` outside this module. -/
def register_pool_box_scan (node : NodeInterface)
    (oracle_pool_nft pool_box_tree_bytes : String) : RunResult Scan :=
  liftScanResult
    (Scan.register node "Pool Box Scan"
      (pool_box_tracking_rule oracle_pool_nft pool_box_tree_bytes))

/-- `register_refresh_box_scan(scan_name, refresh_nft)`; the refresh contract
tree bytes come from `RefreshContract` outside this module. -/
def register_refresh_box_scan (node : NodeInterface) (scan_name : String)
    (refresh_nft tree_bytes : String) : RunResult Scan :=
  liftScanResult
    (Scan.register node scan_name (refresh_box_tracking_rule refresh_nft tree_bytes))

/-- `register_epoch_preparation_scan`: `address_to_bytes(..)?` propagates the
node error, then the scan is registered. -/
def register_epoch_preparation_scan (node : NodeInterface)
    (oracle_pool_nft epoch_preparation_address : String) : RunResult Scan :=
  match node.address_to_bytes epoch_preparation_address with
  | Except.error e => RunResult.err (ScanError.NodeError e)
  | Except.ok epoch_prep_bytes =>
    liftScanResult
      (Scan.register node "Epoch Preparation Scan"
        (epoch_preparation_tracking_rule oracle_pool_nft epoch_prep_bytes))

/-- `register_local_oracle_datapoint_scan`: two `?`-propagated collaborator
calls, then the scan is registered. -/
def register_local_oracle_datapoint_scan (node : NodeInterface)
    (oracle_pool_participant_token datapoint_address oracle_address : String) :
    RunResult Scan :=
  match node.address_to_bytes datapoint_address with
  | Except.error e => RunResult.err (ScanError.NodeError e)
  | Except.ok datapoint_add_bytes =>
    match node.address_to_raw_for_register oracle_address with
    | Except.error e => RunResult.err (ScanError.NodeError e)
    | Except.ok oracle_add_bytes =>
      liftScanResult
        (Scan.register node "Local Oracle Datapoint Scan"
          (local_datapoint_tracking_rule oracle_pool_participant_token
            datapoint_add_bytes oracle_add_bytes))

/-- `register_datapoint_scan`: one `?`-propagated collaborator call, then the
scan is registered. -/
def register_datapoint_scan (node : NodeInterface)
    (oracle_pool_participant_token datapoint_address : String) : RunResult Scan :=
  match node.address_to_bytes datapoint_address with
  | Except.error e => RunResult.err (ScanError.NodeError e)
  | Except.ok datapoint_add_bytes =>
    liftScanResult
      (Scan.register node "All Datapoints Scan"
        (datapoint_tracking_rule oracle_pool_participant_token datapoint_add_bytes))

/-- `register_pool_deposit_scan`: the source calls
`address_to_bytes(pool_deposit_address).expect("Failed to access node to use addressToBytes.")`,
so a collaborator error here is a Rust panic, not a returned `Err`. -/
def register_pool_deposit_scan (node : NodeInterface)
    (pool_deposit_address : String) : RunResult Scan :=
  match node.address_to_bytes pool_deposit_address with
  | Except.error _ => RunResult.panicked "Failed to access node to use addressToBytes."
  | Except.ok pool_dep_add_bytes =>
    liftScanResult
      (Scan.register node "Pool Deposits Scan"
        (pool_deposit_tracking_rule pool_dep_add_bytes))

/-! ### Specification-side helpers and concrete collaborator instances -/

/-- Lookup in the persisted name-to-id document. -/
def lookupAssoc : List (String × String) → String → Option String
  | [], _ => none
  | (k0, v) :: rest, k => if k0 = k then some v else lookupAssoc rest k

/-- The keys of the persisted document, in order. -/
def keys (l : List (String × String)) : List String :=
  l.map Prod.fst

/-- Specification-side definition: the id of the last scan in the list
carrying the given name ("later entries overwrite earlier ones"), stated
independently of the implementation's insert routine.  `none` when no scan
carries the name. -/
def lastIdFor : List Scan → String → Option String
  | [], _ => none
  | s :: rest, name =>
    match lastIdFor rest name with
    | some v => some v
    | none => if s.name = name then some s.id else none

/-- A node whose scan registration succeeds but yields the sentinel
identifier, and whose other calls succeed trivially. -/
def nodeNull : NodeInterface :=
  ⟨fun _ => Except.ok "null",
   fun _ => Except.ok [],
   fun _ => Except.ok "",
   fun _ => Except.ok [],
   fun _ => Except.ok "",
   fun _ => Except.ok ""⟩

/-- A node whose address-encoding calls fail with a transport error. -/
def nodeAddrFail : NodeInterface :=
  ⟨fun _ => Except.ok "7",
   fun _ => Except.ok [],
   fun _ => Except.ok "",
   fun _ => Except.ok [],
   fun _ => Except.error ⟨"connection refused"⟩,
   fun _ => Except.error ⟨"connection refused"⟩⟩

/-- A node holding two boxes under every scan id. -/
def nodeTwoBoxes : NodeInterface :=
  ⟨fun _ => Except.ok "21",
   fun _ => Except.ok [⟨1⟩, ⟨2⟩],
   fun _ => Except.ok "",
   fun _ => Except.ok [],
   fun _ => Except.ok "",
   fun _ => Except.ok ""⟩

/-- A node holding no boxes under any scan id. -/
def nodeNoBoxes : NodeInterface :=
  ⟨fun _ => Except.ok "22",
   fun _ => Except.ok [],
   fun _ => Except.ok "",
   fun _ => Except.ok [],
   fun _ => Except.ok "",
   fun _ => Except.ok ""⟩

/-! ### Helper lemmas -/

theorem build_ok_of_no_null (scans : List Scan) (acc : List (String × String))
    (h : ∀ s ∈ scans, s.id ≠ "null") :
    build_scan_id_fields scans acc =
      Except.ok (scans.foldl (fun a s => insertField a s.name s.id) acc) := by
  induction scans generalizing acc with
  | nil => rfl
  | cons s rest ih =>
    have hs : ¬ s.id = "null" := h s (List.mem_cons_self s rest)
    simp only [build_scan_id_fields, if_neg hs, List.foldl_cons]
    exact ih _ (fun t ht => h t (List.mem_cons_of_mem s ht))

theorem build_error_of_null (scans : List Scan) (acc : List (String × String))
    (h : ∃ s ∈ scans, s.id = "null") :
    build_scan_id_fields scans acc = Except.error ScanError.FailedToRegister := by
  induction scans generalizing acc with
  | nil => simp at h
  | cons s rest ih =>
    by_cases hs : s.id = "null"
    · simp [build_scan_id_fields, hs]
    · rcases h with ⟨t, ht, hid⟩
      rcases List.mem_cons.mp ht with rfl | htr
      · exact absurd hid hs
      · simp only [build_scan_id_fields, if_neg hs]
        exact ih _ ⟨t, htr, hid⟩

theorem lookupAssoc_insertField_self (l : List (String × String)) (k v : String) :
    lookupAssoc (insertField l k v) k = some v := by
  induction l with
  | nil => simp [insertField, lookupAssoc]
  | cons p rest ih =>
    by_cases hp : p.1 = k
    · simp [insertField, hp, lookupAssoc]
    · simp [insertField, hp, lookupAssoc, ih]

theorem lookupAssoc_insertField_ne (l : List (String × String)) (k v k' : String)
    (h : ¬ k' = k) :
    lookupAssoc (insertField l k v) k' = lookupAssoc l k' := by
  have h' : ¬ k = k' := fun he => h he.symm
  induction l with
  | nil =>
    simp only [insertField, lookupAssoc, if_neg h']
  | cons p rest ih =>
    rcases p with ⟨k0, v0⟩
    by_cases hp : k0 = k
    · have hk0 : ¬ k0 = k' := by rw [hp]; exact h'
      simp only [insertField, if_pos hp, lookupAssoc, if_neg hk0]
    · simp only [insertField, if_neg hp, lookupAssoc]
      by_cases hp' : k0 = k'
      · rw [if_pos hp', if_pos hp']
      · rw [if_neg hp', if_neg hp', ih]

theorem keys_insertField (l : List (String × String)) (k v : String) :
    keys (insertField l k v) = if k ∈ keys l then keys l else keys l ++ [k] := by
  induction l with
  | nil => simp [insertField, keys]
  | cons p rest ih =>
    rcases p with ⟨k0, v0⟩
    by_cases hp : k0 = k
    · subst hp
      have hin : insertField ((k0, v0) :: rest) k0 v = (k0, v) :: rest := by
        simp [insertField]
      rw [hin]
      simp only [keys, List.map_cons]
      rw [if_pos (List.mem_cons_self _ _)]
    · have hne : ¬ k = k0 := fun he => hp he.symm
      simp only [insertField, if_neg hp, keys, List.map_cons]
      have hmem : (k ∈ k0 :: List.map Prod.fst rest) ↔ k ∈ List.map Prod.fst rest := by
        simp [List.mem_cons, hne]
      simp only [keys] at ih
      by_cases hk : k ∈ List.map Prod.fst rest
      · rw [ih, if_pos hk, if_pos (hmem.mpr hk)]
      · rw [ih, if_neg hk, if_neg (fun hx => hk (hmem.mp hx))]
        simp

theorem nodup_keys_insertField (l : List (String × String)) (k v : String)
    (h : (keys l).Nodup) : (keys (insertField l k v)).Nodup := by
  rw [keys_insertField]
  by_cases hk : k ∈ keys l
  · simpa [hk] using h
  · simp only [hk, if_false]
    refine List.Nodup.append h (List.nodup_singleton k) ?_
    intro a ha hb
    rcases List.mem_singleton.mp hb with rfl
    exact hk ha

theorem nodup_keys_foldl_insert (scans : List Scan) (acc : List (String × String))
    (h : (keys acc).Nodup) :
    (keys (scans.foldl (fun a s => insertField a s.name s.id) acc)).Nodup := by
  induction scans generalizing acc with
  | nil => simpa using h
  | cons s rest ih =>
    simp only [List.foldl_cons]
    exact ih _ (nodup_keys_insertField _ _ _ h)

theorem lookupAssoc_foldl_insert (scans : List Scan) (acc : List (String × String))
    (name : String) :
    lookupAssoc (scans.foldl (fun a s => insertField a s.name s.id) acc) name =
      match lastIdFor scans name with
      | some v => some v
      | none => lookupAssoc acc name := by
  induction scans generalizing acc with
  | nil => rfl
  | cons s rest ih =>
    simp only [List.foldl_cons, lastIdFor]
    rw [ih]
    cases hrest : lastIdFor rest name with
    | some v => simp
    | none =>
      by_cases hn : s.name = name
      · subst hn
        simp [lookupAssoc_insertField_self]
      · simp [hn, lookupAssoc_insertField_ne _ _ _ _ (fun he => hn he.symm)]

theorem lookupAssoc_none_of_not_mem (l : List (String × String)) (k : String)
    (h : ¬ k ∈ keys l) : lookupAssoc l k = none := by
  induction l with
  | nil => rfl
  | cons p rest ih =>
    rcases p with ⟨k0, v0⟩
    simp only [keys, List.map_cons, List.mem_cons, not_or] at h
    have hk0 : ¬ k0 = k := fun he => h.1 he.symm
    simp only [lookupAssoc, if_neg hk0]
    exact ih h.2

theorem mem_keys_of_lookupAssoc (l : List (String × String)) (k v : String)
    (h : lookupAssoc l k = some v) : k ∈ keys l := by
  by_contra hk
  rw [lookupAssoc_none_of_not_mem l k hk] at h
  exact Option.noConfusion h

theorem countP_keys_of_not_mem (l : List (String × String)) (k : String)
    (h : ¬ k ∈ keys l) : l.countP (fun p => p.1 == k) = 0 := by
  induction l with
  | nil => rfl
  | cons p rest ih =>
    rcases p with ⟨k0, v0⟩
    simp only [keys, List.map_cons, List.mem_cons, not_or] at h
    have h1 : (k0 == k) = false := beq_false_of_ne (fun he => h.1 he.symm)
    rw [List.countP_cons]
    simp only [h1, if_false, Nat.add_zero]
    exact ih h.2

theorem countP_keys_of_nodup (l : List (String × String)) (k : String)
    (hnd : (keys l).Nodup) (hmem : k ∈ keys l) :
    l.countP (fun p => p.1 == k) = 1 := by
  induction l with
  | nil => simp [keys] at hmem
  | cons p rest ih =>
    rcases p with ⟨k0, v0⟩
    simp only [keys, List.map_cons, List.nodup_cons] at hnd
    rcases List.mem_cons.mp (by simpa only [keys, List.map_cons] using hmem) with hk | hk
    · have h1 : (k0 == k) = true := by simp [hk.symm]
      have h0 : rest.countP (fun p => p.1 == k) = 0 := by
        refine countP_keys_of_not_mem rest k ?_
        intro hm
        simp only [keys] at hm
        rw [hk] at hm
        exact hnd.1 hm
      rw [List.countP_cons]
      simp [h1, h0]
    · have hk' : ¬ k0 = k := by
        intro he
        rw [he] at hnd
        exact hnd.1 hk
      have h1 : (k0 == k) = false := beq_false_of_ne hk'
      rw [List.countP_cons]
      simp only [h1, if_false, Nat.add_zero]
      exact ih hnd.2 hk

theorem lastIdFor_isSome_of_mem (scans : List Scan) (name : String)
    (h : ∃ s ∈ scans, s.name = name) : ∃ id, lastIdFor scans name = some id := by
  induction scans with
  | nil => simp at h
  | cons s rest ih =>
    cases hrest : lastIdFor rest name with
    | some v => exact ⟨v, by simp [lastIdFor, hrest]⟩
    | none =>
      rcases h with ⟨t, ht, hn⟩
      rcases List.mem_cons.mp ht with rfl | htr
      · exact ⟨t.id, by simp [lastIdFor, hrest, hn]⟩
      · rcases ih ⟨t, htr, hn⟩ with ⟨id, hid⟩
        rw [hid] at hrest
        exact Option.noConfusion hrest

theorem exists_mem_of_two_le_filter (scans : List Scan) (name : String)
    (h : 2 ≤ (scans.filter (fun s => s.name == name)).length) :
    ∃ s ∈ scans, s.name = name := by
  rcases hf : scans.filter (fun s => s.name == name) with _ | ⟨s, rest⟩
  · rw [hf] at h
    simp at h
  · have hs : s ∈ scans.filter (fun s => s.name == name) := by
      rw [hf]
      exact List.mem_cons_self s rest
    rcases List.mem_filter.mp hs with ⟨hmem, hname⟩
    exact ⟨s, hmem, by simpa using hname⟩

/-! ### Claim theorems -/

/-- C1 (counterexample): `Scan::register` does not inspect the identifier the
node returns.  With a node whose `register_scan` yields the sentinel
`"null"`, `register` succeeds and returns a `Scan` carrying the `"null"` id,
contradicting the claim that it fails with `FailedToRegister` and never
returns such a `Scan`. -/
theorem register_returns_null_id_scan :
    Scan.register nodeNull "Pool Box Scan" (Json.obj []) =
      Except.ok (Scan.new "Pool Box Scan" "null") := rfl

/-- C1 (amended): `Scan::register` forwards whatever identifier the node's
`register_scan` call returns — including the sentinel `"null"` — as the id of
the resulting `Scan`, and it fails only by passing through the node error as
`ScanError::NodeError`; it never produces `FailedToRegister`.  The `"null"`
sentinel is checked only later, by `save_scan_ids_locally`. -/
theorem register_forwards_node_id (node : NodeInterface) (name : String) (rule : Json) :
    (∀ id, node.register_scan (scanRegJson name rule) = Except.ok id →
        Scan.register node name rule = Except.ok (Scan.new name id)) ∧
    (∀ e, Scan.register node name rule = Except.error e →
        ∃ ne, e = ScanError.NodeError ne ∧
          node.register_scan (scanRegJson name rule) = Except.error ne) := by
  constructor
  · intro id hid
    simp [Scan.register, hid]
  · intro e he
    cases hcall : node.register_scan (scanRegJson name rule) with
    | error ne =>
      refine ⟨ne, ?_, rfl⟩
      simp [Scan.register, hcall] at he
      exact he.symm
    | ok id =>
      simp [Scan.register, hcall] at he

/-- C1 (witness): instantiating the amended theorem at the `"null"`-returning
node shows `register` succeeding with the sentinel id. -/
theorem register_forwards_node_id_witness :
    Scan.register nodeNull "S" (Json.obj []) = Except.ok (Scan.new "S" "null") :=
  (register_forwards_node_id nodeNull "S" (Json.obj [])).1 "null" rfl

/-- C2: if any scan in the list carries the `"null"` id,
`save_scan_ids_locally` returns `FailedToRegister` and the persisted file is
left exactly as it was (no write occurs). -/
theorem save_scan_ids_locally_null_aborts (writeRes : Except String Unit)
    (fs : Option String) (scans : List Scan)
    (h : ∃ s ∈ scans, s.id = "null") :
    save_scan_ids_locally writeRes fs scans =
      (Except.error ScanError.FailedToRegister, fs) := by
  simp [save_scan_ids_locally, build_error_of_null scans [] h]

/-- C2 (witness): a one-element list with the sentinel id fails and leaves
the absent file absent. -/
theorem save_scan_ids_locally_null_aborts_witness :
    save_scan_ids_locally (Except.ok ()) none [Scan.new "A" "null"] =
      (Except.error ScanError.FailedToRegister, none) :=
  save_scan_ids_locally_null_aborts (Except.ok ()) none [Scan.new "A" "null"]
    ⟨Scan.new "A" "null", List.mem_cons_self _ _, rfl⟩

/-- C3: `Scan::get_box` returns the first element of the collection
`get_boxes` yields when that collection is non-empty, and fails with
`NoBoxesFound` exactly when `get_boxes` succeeds with the empty collection. -/
theorem get_box_first_of_get_boxes (node : NodeInterface) (scan : Scan) :
    (∀ b rest, Scan.get_boxes node scan = Except.ok (b :: rest) →
        Scan.get_box node scan = Except.ok b) ∧
    (Scan.get_box node scan = Except.error ScanError.NoBoxesFound ↔
        Scan.get_boxes node scan = Except.ok []) := by
  constructor
  · intro b rest h
    simp [Scan.get_box, h]
  · cases hcall : node.get_scan_boxes scan.id with
    | error e =>
      have hb : Scan.get_boxes node scan = Except.error (ScanError.NodeError e) := by
        simp [Scan.get_boxes, hcall]
      simp [Scan.get_box, hb]
    | ok boxes =>
      have hb : Scan.get_boxes node scan = Except.ok boxes := by
        simp [Scan.get_boxes, hcall]
      cases boxes with
      | nil => simp [Scan.get_box, hb]
      | cons b rest => simp [Scan.get_box, hb]

/-- C3 (witness): on a node holding two boxes, `get_box` returns the first in
the node's order. -/
theorem get_box_first_of_get_boxes_witness :
    Scan.get_box nodeTwoBoxes (Scan.new "Pool Box Scan" "21") = Except.ok ⟨1⟩ :=
  (get_box_first_of_get_boxes nodeTwoBoxes (Scan.new "Pool Box Scan" "21")).1 ⟨1⟩ [⟨2⟩] rfl

/-- C4 (code evaluated at the failing input): when `address_to_bytes` fails
with a transport error, `register_pool_deposit_scan` panics through
`.expect(..)` instead of returning a typed error, while the otherwise
identical `register_epoch_preparation_scan` propagates the same failure as
`ScanError::NodeError`. -/
theorem pool_deposit_scan_panics_on_node_error :
    register_pool_deposit_scan nodeAddrFail "poolDepositAddress" =
      RunResult.panicked "Failed to access node to use addressToBytes." ∧
    register_epoch_preparation_scan nodeAddrFail "nft" "epochPrepAddress" =
      RunResult.err (ScanError.NodeError ⟨"connection refused"⟩) := ⟨rfl, rfl⟩

/-- C5: the pool-deposit tracking rule is the single script-equals condition
on the deposit address bytes, contains no `containsAsset` condition anywhere
in its tree, and every one of the other five catalog tracking rules does
contain a `containsAsset` condition. -/
theorem pool_deposit_rule_has_no_asset_condition
    (dep_bytes nft tree rtree refresh_nft prep_nft prep_bytes token dp_bytes oracle_raw :
      String) :
    pool_deposit_tracking_rule dep_bytes =
      Json.obj [("predicate", Json.str "equals"), ("value", Json.str dep_bytes)] ∧
    Json.hasContainsAsset (pool_deposit_tracking_rule dep_bytes) = false ∧
    Json.hasContainsAsset (pool_box_tracking_rule nft tree) = true ∧
    Json.hasContainsAsset (refresh_box_tracking_rule refresh_nft rtree) = true ∧
    Json.hasContainsAsset (epoch_preparation_tracking_rule prep_nft prep_bytes) = true ∧
    Json.hasContainsAsset (local_datapoint_tracking_rule token dp_bytes oracle_raw) = true ∧
    Json.hasContainsAsset (datapoint_tracking_rule token dp_bytes) = true :=
  ⟨rfl, rfl, rfl, rfl, rfl, rfl, rfl⟩

/-- C6: on `[Scan "A" "1", Scan "B" "2"]` the persisted document is exactly
the pretty-printed object mapping `"A"` to `"1"` and `"B"` to `"2"`, and the
call returns `Ok(true)`. -/
theorem save_scan_ids_locally_two_entries :
    save_scan_ids_locally (Except.ok ()) none [Scan.new "A" "1", Scan.new "B" "2"] =
      (Except.ok true, some ("\x7b\n    \"A\": \"1\",\n    \"B\": \"2\"\n\x7d")) := rfl

/-- C7: the local-oracle-datapoint tracking rule is an `and` of exactly three
conditions, in order: `containsAsset` on the participant token, `equals` on
the datapoint address script bytes (with no register field), and `equals` on
register R4 against the oracle address raw bytes. -/
theorem local_datapoint_rule_three_conditions (token dp_bytes oracle_raw : String) :
    (local_datapoint_tracking_rule token dp_bytes oracle_raw).lookupField "predicate" =
      some (Json.str "and") ∧
    ∃ a1 a2 a3,
      (local_datapoint_tracking_rule token dp_bytes oracle_raw).lookupField "args" =
        some (Json.arr [a1, a2, a3]) ∧
      a1.lookupField "predicate" = some (Json.str "containsAsset") ∧
      a1.lookupField "assetId" = some (Json.str token) ∧
      a2.lookupField "predicate" = some (Json.str "equals") ∧
      a2.lookupField "value" = some (Json.str dp_bytes) ∧
      a2.lookupField "register" = none ∧
      a3.lookupField "predicate" = some (Json.str "equals") ∧
      a3.lookupField "register" = some (Json.str "R4") ∧
      a3.lookupField "value" = some (Json.str oracle_raw) :=
  ⟨rfl,
   Json.obj [("predicate", Json.str "containsAsset"), ("assetId", Json.str token)],
   Json.obj [("predicate", Json.str "equals"), ("value", Json.str dp_bytes)],
   Json.obj [("predicate", Json.str "equals"), ("register", Json.str "R4"),
             ("value", Json.str oracle_raw)],
   rfl, rfl, rfl, rfl, rfl, rfl, rfl, rfl, rfl⟩

/-- C8: when the node query for the scan's id succeeds with an empty match
set, `get_boxes` succeeds with the empty collection rather than failing. -/
theorem get_boxes_empty_ok (node : NodeInterface) (scan : Scan)
    (h : node.get_scan_boxes scan.id = Except.ok []) :
    Scan.get_boxes node scan = Except.ok [] := by
  simp [Scan.get_boxes, h]

/-- C8 (witness): a node holding no boxes yields `Ok([])`. -/
theorem get_boxes_empty_ok_witness :
    Scan.get_boxes nodeNoBoxes (Scan.new "S" "22") = Except.ok [] :=
  get_boxes_empty_ok nodeNoBoxes (Scan.new "S" "22") rfl

/-- C9: when no scan carries the `"null"` id and the file write succeeds,
`save_scan_ids_locally` returns `Ok(true)`; it never returns `Ok(false)` for
any input; and on the empty list it writes the empty JSON object document and
returns `Ok(true)`. -/
theorem save_scan_ids_locally_ok (writeRes : Except String Unit) (fs : Option String)
    (scans : List Scan) :
    ((∀ s ∈ scans, s.id ≠ "null") → writeRes = Except.ok () →
        (save_scan_ids_locally writeRes fs scans).1 = Except.ok true) ∧
    (∀ b, (save_scan_ids_locally writeRes fs scans).1 = Except.ok b → b = true) ∧
    save_scan_ids_locally (Except.ok ()) fs [] = (Except.ok true, some "\x7b\x7d") := by
  refine ⟨?_, ?_, rfl⟩
  · intro hnull hw
    subst hw
    simp [save_scan_ids_locally, build_ok_of_no_null scans [] hnull]
  · intro b hb
    cases hbuild : build_scan_id_fields scans [] with
    | error e =>
      simp [save_scan_ids_locally, hbuild] at hb
    | ok fields =>
      cases writeRes with
      | error msg => simp [save_scan_ids_locally, hbuild] at hb
      | ok u =>
        simp [save_scan_ids_locally, hbuild] at hb
        exact hb

/-- C9 (witness): a sentinel-free one-element list with a successful write
returns `Ok(true)`. -/
theorem save_scan_ids_locally_ok_witness :
    (save_scan_ids_locally (Except.ok ()) none [Scan.new "A" "1"]).1 = Except.ok true :=
  (save_scan_ids_locally_ok (Except.ok ()) none [Scan.new "A" "1"]).1 (by decide) rfl

/-- C10: when two scans share a name and none carries the `"null"` id, the
document written by `save_scan_ids_locally` holds exactly one entry for that
name, and its value is the id of the last scan with that name in the input
list. -/
theorem save_scan_ids_locally_last_wins (fs : Option String) (scans : List Scan)
    (name : String)
    (hnull : ∀ s ∈ scans, s.id ≠ "null")
    (hdup : 2 ≤ (scans.filter (fun s => s.name == name)).length) :
    ∃ fields lastId,
      save_scan_ids_locally (Except.ok ()) fs scans =
        (Except.ok true, some (stringify_pretty fields 4)) ∧
      lastIdFor scans name = some lastId ∧
      lookupAssoc fields name = some lastId ∧
      fields.countP (fun p => p.1 == name) = 1 := by
  rcases lastIdFor_isSome_of_mem scans name
    (exists_mem_of_two_le_filter scans name hdup) with ⟨lastId, hlast⟩
  have hlk : lookupAssoc (scans.foldl (fun a s => insertField a s.name s.id) []) name =
      some lastId := by
    have hfold := lookupAssoc_foldl_insert scans [] name
    rw [hlast] at hfold
    simpa using hfold
  refine ⟨scans.foldl (fun a s => insertField a s.name s.id) [], lastId, ?_, hlast, hlk, ?_⟩
  · simp [save_scan_ids_locally, build_ok_of_no_null scans [] hnull]
  · have hnd : (keys (scans.foldl (fun a s => insertField a s.name s.id) [])).Nodup :=
      nodup_keys_foldl_insert scans [] (by simp [keys])
    exact countP_keys_of_nodup _ name hnd (mem_keys_of_lookupAssoc _ name lastId hlk)

/-- C10 (witness): two scans named `"A"` with ids `"1"` then `"2"` persist a
single `"A"` entry holding `"2"`. -/
theorem save_scan_ids_locally_last_wins_witness :
    ∃ fields lastId,
      save_scan_ids_locally (Except.ok ()) none [Scan.new "A" "1", Scan.new "A" "2"] =
        (Except.ok true, some (stringify_pretty fields 4)) ∧
      lastIdFor [Scan.new "A" "1", Scan.new "A" "2"] "A" = some lastId ∧
      lookupAssoc fields "A" = some lastId ∧
      fields.countP (fun p => p.1 == "A") = 1 :=
  save_scan_ids_locally_last_wins none [Scan.new "A" "1", Scan.new "A" "2"] "A"
    (by decide) (by decide)

end OracleScans
